import Mathlib

/-!
# Verification of the mercury.workers synchronization core

Shallow embedding of the three scraper track loops (profiles, likes,
following) of the repository, together with their shared store-write
helpers, and proofs of the testable properties claimed in the spec.

Conventions of the embedding:
* Timestamps (`Date.now()`, `*ScrapedAt` columns) are epoch milliseconds
  carried as `Int`.
* The JavaScript floating-point scheduler variable `SLEEP_TIME_MS` is
  carried as `ℚ`; the backoff multiplier 1.1 is the exact rational 11/10.
* Database tables are lists of rows; Prisma `update`/`upsert`/`create`
  calls become pure list transformations.
* Remote fetch calls are external collaborators: each loop takes the
  fetch outcome (`Except LoopError …`) as a parameter.
* Any awaited store write may fail at runtime; the loops take a
  `writeOk : String → Bool` oracle deciding which per-item writes succeed,
  a failing write raising `LoopError.writeFailed`.
* The JS field name `protected` is a Lean keyword, embedded as
  `protectedF`.
-/

namespace Mercury

abbrev Time := Int

/-- Remote user public metrics, as requested from the API. -/
structure PublicMetricsUser where
  followers_count : Option Int
  following_count : Option Int
  tweet_count : Option Int
  listed_count : Option Int
deriving Repr, DecidableEq

/-- Remote user object (`UserV2` of twitter-api-v2), restricted to the
fields the scrapers read. JSON-payload fields that the code only
stringifies are carried as opaque `Option String`. -/
structure UserV2 where
  id : String
  name : String
  username : String
  created_at : Option String
  description : Option String
  entities : Option String
  location : Option String
  pinned_tweet_id : Option String
  profile_image_url : Option String
  protectedF : Bool
  public_metrics : Option PublicMetricsUser
  url : Option String
  verified : Bool
deriving Repr, DecidableEq

/-- Remote tweet public metrics. -/
structure PublicMetricsTweet where
  retweet_count : Option Int
  reply_count : Option Int
  like_count : Option Int
  quote_count : Option Int
deriving Repr, DecidableEq

/-- Remote tweet object (`TweetV2`), restricted to the fields the likes
scraper reads. -/
structure TweetV2 where
  id : String
  text : String
  created_at : Option String
  author_id : Option String
  conversation_id : Option String
  referenced_tweets : Option String
  attachments : Option String
  geo : Option String
  context_annotations : Option String
  entities : Option String
  withheld : Option String
  possibly_sensitive : Bool
  lang : String
  reply_settings : String
  source : String
  public_metrics : Option PublicMetricsTweet
deriving Repr, DecidableEq

/-- Stored `twitterMetaData` sub-record of a tracked account. -/
structure TwitterMetaData where
  createdAt : Option String
  description : Option String
  entities : Option String
  location : Option String
  pinned_tweet_id : Option String
  profile_image_url : Option String
  protectedF : Bool
  url : Option String
  verified : Bool
deriving Repr, DecidableEq

/-- Stored `twitterPublicMetrics` sub-record of a tracked account. -/
structure TwitterPublicMetrics where
  followers_count : Option Int
  following_count : Option Int
  tweet_count : Option Int
  listed_count : Option Int
deriving Repr, DecidableEq

/-- The `tUser` row: a tracked account with per-track staleness timestamps. -/
structure TUser where
  id : String
  name : String
  username : String
  accountCreatedAt : Option String
  marked : Bool
  accountExists : Bool
  profileScrapedAt : Time
  likesScrapedAt : Time
  fullFollowingScrapedAt : Time
  lastFollowingCount : Int
  twitterMetaData : Option TwitterMetaData
  twitterPublicMetrics : Option TwitterPublicMetrics
deriving Repr, DecidableEq

/-- Status column of a `tConnection` row. -/
inductive ConnStatus where
  | CONNECTED
  | DISCONNECTED
deriving Repr, DecidableEq

/-- The `tConnection` row: one version of a directed following edge. -/
structure TConnection where
  fromId : String
  toId : String
  version : Int
  status : ConnStatus
deriving Repr, DecidableEq

/-- Stored tweet metrics row (dependent sub-record of `tTweet`). -/
structure TTweetMetrics where
  retweet_count : Option Int
  reply_count : Option Int
  like_count : Option Int
  quote_count : Option Int
deriving Repr, DecidableEq

/-- The `tTweet` row: denormalized tweet snapshot. -/
structure TTweet where
  id : String
  tweetText : String
  createdAt : Option String
  authorId : Option String
  conversationId : Option String
  referencedTweets : Option String
  attachments : Option String
  geo : Option String
  context_annotations : Option String
  entities : Option String
  withheld : Option String
  possibly_sensitive : Bool
  lang : String
  reply_settings : String
  source : String
  twitterPublicMetrics : Option TTweetMetrics
deriving Repr, DecidableEq

/-- The `tLike` row: membership record (account id, tweet id);
`recordCreatedAt` is the schema-default insertion time. -/
structure TLike where
  tTweetId : String
  tUserId : String
  recordCreatedAt : Time
deriving Repr, DecidableEq

/-- The backing store: all tables the three tracks touch. -/
structure Db where
  users : List TUser
  connections : List TConnection
  tweets : List TTweet
  likes : List TLike
deriving Repr, DecidableEq

/-- Per-track scheduler state (`SLEEP_UNTIL_TIMESTAMP_IN_MS` and
`SLEEP_TIME_MS` module-level variables). -/
structure GovState where
  SLEEP_UNTIL_TIMESTAMP_IN_MS : Time
  SLEEP_TIME_MS : ℚ
deriving Repr, DecidableEq

def SLEEP_MULTIPLIER_ON_ERROR : ℚ := 11/10

def REFRESH_THRESHOLD_IN_MS : Int := 8 * 60 * 60 * 1000

/-- Errors a loop iteration can raise: rate limiting
(`ApiResponseError` with `rateLimitError`), a remote server error
(`ApiResponseError` with a status code), a Prisma unique-constraint
violation (`P2002`), the null dereference of `followedUser!`, and a
failed store write. -/
inductive LoopError where
  | rateLimited (reset : Int)
  | apiError (code : Int)
  | prismaP2002
  | nullAssertion
  | writeFailed (id : String)
deriving Repr, DecidableEq

/-- Result of one loop-body run: the store after whatever writes
committed, the scheduler state, and the raised error if the body threw. -/
structure LoopOutcome where
  db : Db
  gov : GovState
  error : Option LoopError
deriving Repr, DecidableEq

/-! ## Diff engine (scrape_following lines 223-226, scrape_likes 498-500) -/

/-- JS `new Set(l)`: deduplicate keeping the first occurrence, preserving
insertion order. -/
def jsSetOf (l : List String) : List String :=
  l.foldl (fun acc x => if x ∈ acc then acc else acc ++ [x]) []

/-- The `added`/`removed` partition computed by the following scraper. -/
structure DiffResult where
  added : List String
  removed : List String
deriving Repr, DecidableEq

/-- The diff computation:
`_old = new Set(dbIds); _new = new Set(twtrIds);`
`added = new Set([..._new].filter(x => !_old.has(x)));`
`removed = new Set([..._old].filter(x => !_new.has(x)))`. -/
def diff (dbIds twtrIds : List String) : DiffResult :=
  let _old := jsSetOf dbIds
  let _new := jsSetOf twtrIds
  { added := _new.filter (fun x => !(_old.contains x))
    removed := _old.filter (fun x => !(_new.contains x)) }

/-! ## Store primitives -/

/-- Embeds `prisma.tUser.findUnique({where: {id}})`. -/
def getUser (users : List TUser) (id : String) : Option TUser :=
  users.find? (fun u => u.id == id)

/-- Embeds `prisma.tUser.update({where: {id}, data: …})`: rewrite the row(s)
with the given id in place. -/
def updateUserRow (users : List TUser) (id : String) (f : TUser → TUser) :
    List TUser :=
  users.map (fun u => if u.id == id then f u else u)

/-- Embeds `prisma.tTweet.findUnique({where: {id}})`. -/
def getTweet (tweets : List TTweet) (id : String) : Option TTweet :=
  tweets.find? (fun t => t.id == id)

/-! ## Shared entity-mapping helpers (scrape_following lines 20-83) -/

/-- The `twitterMetaData` object built in `upsertUser`. Note line 30 of
the source: `protected: newUser.verified`. -/
def upsertUserMetaData (newUser : UserV2) : TwitterMetaData :=
  { createdAt := newUser.created_at
    description := newUser.description
    entities := newUser.entities
    location := newUser.location
    pinned_tweet_id := newUser.pinned_tweet_id
    profile_image_url := newUser.profile_image_url
    protectedF := newUser.verified
    url := newUser.url
    verified := newUser.verified }

/-- The `twitterPublicMetrics` object built in `upsertUser`. -/
def upsertUserMetrics (newUser : UserV2) : TwitterPublicMetrics :=
  { followers_count := (newUser.public_metrics).bind (·.followers_count)
    following_count := (newUser.public_metrics).bind (·.following_count)
    tweet_count := (newUser.public_metrics).bind (·.tweet_count)
    listed_count := (newUser.public_metrics).bind (·.listed_count) }

/-- Default value a timestamp column takes when a row is created without
it (Prisma schema default; the scraper's `userCreate` sets none of the
`*ScrapedAt` columns). -/
def DEFAULT_SCRAPED_AT : Time := 0

/-- The `userCreate` branch of `upsertUser`: a fresh row with
`accountExists: true, marked: false`. -/
def userCreate (newUser : UserV2) : TUser :=
  { id := newUser.id
    name := newUser.name
    username := newUser.username
    accountCreatedAt := newUser.created_at
    marked := false
    accountExists := true
    profileScrapedAt := DEFAULT_SCRAPED_AT
    likesScrapedAt := DEFAULT_SCRAPED_AT
    fullFollowingScrapedAt := DEFAULT_SCRAPED_AT
    lastFollowingCount := 0
    twitterMetaData := some (upsertUserMetaData newUser)
    twitterPublicMetrics := some (upsertUserMetrics newUser) }

/-- The `userUpsert` branch of `upsertUser`: rewrite identity fields and
upsert both sub-records; staleness timestamps and flags are untouched. -/
def userUpsert (newUser : UserV2) (u : TUser) : TUser :=
  { u with
    id := newUser.id
    name := newUser.name
    username := newUser.username
    accountCreatedAt := newUser.created_at
    twitterMetaData := some (upsertUserMetaData newUser)
    twitterPublicMetrics := some (upsertUserMetrics newUser) }

/-- Embeds `prisma.tUser.upsert({where: {id}, create: userCreate, update:
userUpsert})`, returning the upserted row as the source does. -/
def upsertUser (db : Db) (newUser : UserV2) : Db × TUser :=
  match getUser db.users newUser.id with
  | some u =>
      ({ db with users := updateUserRow db.users newUser.id (userUpsert newUser) },
       userUpsert newUser u)
  | none =>
      ({ db with users := db.users ++ [userCreate newUser] }, userCreate newUser)

/-! ## Following edge log (scrape_following lines 85-113) -/

/-- Embeds `prisma.tConnection.findFirst({where: {fromId, toId}, orderBy:
{version: "desc"}})`: the row of highest version for the pair. -/
def findLatest (conns : List TConnection) (fromId toId : String) :
    Option TConnection :=
  (conns.filter (fun c => c.fromId == fromId && c.toId == toId)).foldl
    (fun acc c =>
      match acc with
      | none => some c
      | some b => if c.version > b.version then some c else some b)
    none

/-- The version the next append for the pair will carry:
`previousConnection ? previousConnection.version + 1 : 0`. -/
def nextVersion (conns : List TConnection) (fromId toId : String) : Int :=
  match findLatest conns fromId toId with
  | some p => p.version + 1
  | none => 0

/-- Lines 96-110 of scrape_following: read the latest version for
(fromId, toId) and `prisma.tConnection.create` a row at `version + 1`
(or 0 when no row exists) with status CONNECTED unless `is_removed`. -/
def appendConnection (db : Db) (fromId toId : String) ( is_removed : Bool) :
    Db :=
  let version := nextVersion db.connections fromId toId
  let status := if is_removed then ConnStatus.DISCONNECTED
                else ConnStatus.CONNECTED
  { db with connections :=
      db.connections ++ [⟨fromId, toId, version, status⟩] }

/-- Function `writeChangesToDb` of scrape_following (lines 85-113). When the id is
in the fetched batch its snapshot is upserted; otherwise the existing
local row is looked up; `followedUser!.id` dereferences the result
without a null guard, so a missing row raises `nullAssertion`. -/
def writeChangesToDbFollowing (db : Db) (userId : String)
    (followedUsers : List UserV2) (followedUserId : String)
    ( is_removed : Bool) : Except LoopError Db :=
  let followedUserInfo := followedUsers.find? (fun x => x.id == followedUserId)
  let step : Db × Option TUser :=
    match followedUserInfo with
    | some info =>
        let r := upsertUser db info
        (r.1, some r.2)
    | none => (db, getUser db.users followedUserId)
  match step.2 with
  | none => .error .nullAssertion
  | some followedUser => .ok (appendConnection step.1 userId followedUser.id is_removed)

/-! ## Likes write path (scrape_likes lines 21-105) -/

/-- The `twitterPublicMetrics` object built in `upsertTweet`. -/
def upsertTweetMetrics (newTweet : TweetV2) : TTweetMetrics :=
  { retweet_count := (newTweet.public_metrics).bind (·.retweet_count)
    reply_count := (newTweet.public_metrics).bind (·.reply_count)
    like_count := (newTweet.public_metrics).bind (·.like_count)
    quote_count := (newTweet.public_metrics).bind (·.quote_count) }

/-- The `tweetCreate` object of `upsertTweet`: a full denormalized
snapshot of the remote tweet. -/
def tweetCreate (newTweet : TweetV2) : TTweet :=
  { id := newTweet.id
    tweetText := newTweet.text
    createdAt := newTweet.created_at
    authorId := newTweet.author_id
    conversationId := newTweet.conversation_id
    referencedTweets := newTweet.referenced_tweets
    attachments := newTweet.attachments
    geo := newTweet.geo
    context_annotations := newTweet.context_annotations
    entities := newTweet.entities
    withheld := newTweet.withheld
    possibly_sensitive := newTweet.possibly_sensitive
    lang := newTweet.lang
    reply_settings := newTweet.reply_settings
    source := newTweet.source
    twitterPublicMetrics := some (upsertTweetMetrics newTweet) }

/-- Embeds `prisma.tTweet.upsert({where: {id}, create: tweetCreate, update:
tweetUpsert})`: `tweetUpsert` spreads `tweetCreate` and upserts the
metrics sub-record, so both branches replace all fields. -/
def upsertTweet (db : Db) (newTweet : TweetV2) : Db × TTweet :=
  match getTweet db.tweets newTweet.id with
  | some _ =>
      let tweets' := db.tweets.map
        (fun t => if t.id == newTweet.id then tweetCreate newTweet else t)
      ({ db with tweets := tweets' }, tweetCreate newTweet)
  | none =>
      ({ db with tweets := db.tweets ++ [tweetCreate newTweet] },
       tweetCreate newTweet)

/-- Function `writeChangesToDb` of scrape_likes (lines 81-105): upsert the liked
tweet's snapshot, or reuse the existing row if the batch did not supply
it; `if (!likedTweet) return` makes a missing row a silent no-op; then
upsert the membership row with an empty `update` (duplicate add is a
no-op). -/
def writeChangesToDbLikes (db : Db) (userId : String)
    (likedTweets : List TweetV2) (likedTweetId : String) (now : Time) : Db :=
  let likedTweetInfo := likedTweets.find? (fun x => x.id == likedTweetId)
  let step : Db × Option TTweet :=
    match likedTweetInfo with
    | some info =>
        let r := upsertTweet db info
        (r.1, some r.2)
    | none => (db, getTweet db.tweets likedTweetId)
  match step.2 with
  | none => db
  | some likedTweet =>
      let db1 := step.1
      if db1.likes.any (fun l => l.tTweetId == likedTweet.id && l.tUserId == userId)
      then db1
      else { db1 with likes := db1.likes ++ [⟨likedTweet.id, userId, now⟩] }

/-! ## Candidate selection -/

/-- Embeds `findMany({where: {marked: true, accountExists: true}, orderBy:
[{profileScrapedAt: "asc"}], take: 100})` of scrape_profiles. -/
def profilesStaleUsers (db : Db) : List TUser :=
  ((List.insertionSort (fun a b => a.profileScrapedAt ≤ b.profileScrapedAt)
      (db.users.filter (fun u => u.marked && u.accountExists))).take 100)

/-- The eligibility filter shared by the two edge tracks: `marked`,
`accountExists`, and stored `twitterMetaData.protected = false` (a row
with no metadata sub-record does not match the relation filter). -/
def edgeEligible (db : Db) : List TUser :=
  db.users.filter (fun u =>
    u.marked && u.accountExists &&
      (match u.twitterMetaData with
       | some m => !m.protectedF
       | none => false))

/-- The `findFirst` of scrape_following: eligible users ordered by
`fullFollowingScrapedAt` ascending, first row if any. -/
def followingStaleUser (db : Db) : Option TUser :=
  (List.insertionSort (fun a b => a.fullFollowingScrapedAt ≤ b.fullFollowingScrapedAt)
      (edgeEligible db)).head?

/-- The `findFirst` of scrape_likes: eligible users ordered by
`likesScrapedAt` ascending, first row if any. -/
def likesStaleUser (db : Db) : Option TUser :=
  (List.insertionSort (fun a b => a.likesScrapedAt ≤ b.likesScrapedAt)
      (edgeEligible db)).head?

/-! ## Profiles loop (scrape_profiles lines 116-234) -/

/-- The `twitterMetaData` object built in the profiles loop
(lines 195-205). Note line 202 of the source:
`protected: user.verified`. -/
def profilesTwitterMetaData (user : UserV2) : TwitterMetaData :=
  { createdAt := user.created_at
    description := user.description
    entities := user.entities
    location := user.location
    pinned_tweet_id := user.pinned_tweet_id
    profile_image_url := user.profile_image_url
    protectedF := user.verified
    url := user.url
    verified := user.verified }

/-- The `twitterPublicMetrics` object built in the profiles loop. -/
def profilesPublicMetrics (user : UserV2) : TwitterPublicMetrics :=
  { followers_count := (user.public_metrics).bind (·.followers_count)
    following_count := (user.public_metrics).bind (·.following_count)
    tweet_count := (user.public_metrics).bind (·.tweet_count)
    listed_count := (user.public_metrics).bind (·.listed_count) }

/-- The per-user update of lines 214-231: `profileScrapedAt: new Date()`
together with both sub-record upserts, in one write. -/
def profileUpdateRow (now : Time) (user : UserV2) (u : TUser) : TUser :=
  { u with
    profileScrapedAt := now
    twitterMetaData := some (profilesTwitterMetaData user)
    twitterPublicMetrics := some (profilesPublicMetrics user) }

/-- The `for (const id of removedIds)` loop of lines 183-190: mark each
absent account `accountExists: false`, stopping at the first failed
write. -/
def markRemoved (writeOk : String → Bool) :
    Db → List String → Db × Option LoopError
  | db, [] => (db, none)
  | db, id :: ids =>
      if writeOk id then
        let users' := updateUserRow db.users id
          (fun u => { u with accountExists := false })
        markRemoved writeOk { db with users := users' } ids
      else (db, some (.writeFailed id))

/-- The `for (const user of request.data)` loop of lines 194-232:
per-user profile update, stopping at the first failed write. -/
def updateProfiles (now : Time) (writeOk : String → Bool) :
    Db → List UserV2 → Db × Option LoopError
  | db, [] => (db, none)
  | db, user :: rest =>
      if writeOk user.id then
        let users' := updateUserRow db.users user.id (profileUpdateRow now user)
        updateProfiles now writeOk { db with users := users' } rest
      else (db, some (.writeFailed user.id))

/-- One run of the profiles `loop` body (lines 116-234). The batched
profile fetch outcome is a parameter. Note that the staleness gate of
lines 140-155 reads `likesScrapedAt`, not `profileScrapedAt`. -/
def profilesLoop (db : Db) (now : Time) (gov : GovState)
    (fetchResult : Except LoopError (List UserV2))
    (writeOk : String → Bool) : LoopOutcome :=
  match profilesStaleUsers db with
  | [] => ⟨db, gov, none⟩
  | head :: rest =>
      if ¬ (now - head.likesScrapedAt > REFRESH_THRESHOLD_IN_MS) then
        ⟨db,
         ⟨head.likesScrapedAt + REFRESH_THRESHOLD_IN_MS,
          gov.SLEEP_TIME_MS * SLEEP_MULTIPLIER_ON_ERROR⟩,
         none⟩
      else
        let userIds := (head :: rest).map (·.id)
        match fetchResult with
        | .error e => ⟨db, gov, some e⟩
        | .ok data =>
            let requestIds := data.map (·.id)
            let removedIds := userIds.filter (fun id => !(requestIds.contains id))
            let r1 := markRemoved writeOk db removedIds
            match r1.2 with
            | some e => ⟨r1.1, gov, some e⟩
            | none =>
                let r2 := updateProfiles now writeOk r1.1 data
                ⟨r2.1, gov, r2.2⟩

/-! ## Following loop (scrape_following lines 127-243) -/

/-- Outcome of a successful paginated following fetch: the accumulated
user objects plus the rate-limit signal of the first response. -/
structure FollowingFetch where
  users : List UserV2
  rateLimitRemaining : Int
  rateLimitReset : Int
deriving Repr, DecidableEq

/-- Embeds `findMany({where: {fromId}, distinct: ["fromId","toId"], orderBy:
{version: "desc"}})`: the highest-version row per (fromId, toId). -/
def dbFollowingRows (db : Db) (fromId : String) : List TConnection :=
  (List.insertionSort (fun a b => b.version ≤ a.version)
      (db.connections.filter (fun c => c.fromId == fromId))).foldl
    (fun acc c => if acc.any (fun d => d.toId == c.toId) then acc
                  else acc ++ [c]) []

/-- A `for (const id of added/removed)` loop of lines 227-232, stopping
at the first failed or crashing write. -/
def applyFollowingWrites (writeOk : String → Bool) (userId : String)
    (twtrFollowing : List UserV2) ( is_removed : Bool) :
    Db → List String → Db × Option LoopError
  | db, [] => (db, none)
  | db, id :: ids =>
      if writeOk id then
        match writeChangesToDbFollowing db userId twtrFollowing id is_removed with
        | .error e => (db, some e)
        | .ok db' => applyFollowingWrites writeOk userId twtrFollowing is_removed db' ids
      else (db, some (.writeFailed id))

/-- One run of the following `loop` body (lines 127-243). Note that the
nothing-due branch of lines 149-164 sets `SLEEP_UNTIL_TIMESTAMP_IN_MS`
but does not touch `SLEEP_TIME_MS`. -/
def followingLoop (db : Db) (now : Time) (gov : GovState)
    (fetchResult : Except LoopError FollowingFetch)
    (writeOk : String → Bool) : LoopOutcome :=
  match followingStaleUser db with
  | none => ⟨db, gov, none⟩
  | some staleUser =>
      if ¬ (now - staleUser.fullFollowingScrapedAt > REFRESH_THRESHOLD_IN_MS) then
        ⟨db,
         ⟨staleUser.fullFollowingScrapedAt + REFRESH_THRESHOLD_IN_MS,
          gov.SLEEP_TIME_MS⟩,
         none⟩
      else
        let dbFollowing := dbFollowingRows db staleUser.id
        let dbFollowingIds :=
          (dbFollowing.filter (fun x => x.status == ConnStatus.CONNECTED)).map (·.toId)
        match fetchResult with
        | .error e => ⟨db, gov, some e⟩
        | .ok request =>
            if (request.rateLimitRemaining : ℚ) <
                (staleUser.lastFollowingCount : ℚ) / 1000 then
              ⟨db, ⟨request.rateLimitReset * 1000, gov.SLEEP_TIME_MS⟩, none⟩
            else
              let twtrFollowing := request.users
              let twtrFollowingIds := twtrFollowing.map (·.id)
              let d := diff dbFollowingIds twtrFollowingIds
              let r1 := applyFollowingWrites writeOk staleUser.id twtrFollowing false db d.added
              match r1.2 with
              | some e => ⟨r1.1, gov, some e⟩
              | none =>
                  let r2 := applyFollowingWrites writeOk staleUser.id twtrFollowing true r1.1 d.removed
                  match r2.2 with
                  | some e => ⟨r2.1, gov, some e⟩
                  | none =>
                      let users' := updateUserRow r2.1.users staleUser.id
                        (fun u => { u with fullFollowingScrapedAt := now })
                      ⟨{ r2.1 with users := users' }, gov, none⟩

/-! ## Likes loop (scrape_likes lines 418-514) -/

/-- Embeds `findMany({where: {tUserId}, orderBy: {recordCreatedAt: "desc"},
take: 1000, select: {tTweetId}})`. -/
def dbLikesIdsOf (db : Db) (tUserId : String) : List String :=
  (((List.insertionSort (fun a b => b.recordCreatedAt ≤ a.recordCreatedAt)
      (db.likes.filter (fun l => l.tUserId == tUserId))).take 1000).map
    (·.tTweetId))

/-- The `for (const id of added)` loop of lines 501-503, stopping at the
first failed write. -/
def applyLikesWrites (now : Time) (writeOk : String → Bool) (userId : String)
    (twtrLikes : List TweetV2) :
    Db → List String → Db × Option LoopError
  | db, [] => (db, none)
  | db, id :: ids =>
      if writeOk id then
        applyLikesWrites now writeOk userId twtrLikes
          (writeChangesToDbLikes db userId twtrLikes id now) ids
      else (db, some (.writeFailed id))

/-- One run of the likes `loop` body (lines 418-514). Only an `added`
partition is computed (lines 498-500); no removals are reconciled. -/
def likesLoop (db : Db) (now : Time) (gov : GovState)
    (fetchResult : Except LoopError (List TweetV2))
    (writeOk : String → Bool) : LoopOutcome :=
  match likesStaleUser db with
  | none => ⟨db, gov, none⟩
  | some staleUser =>
      if ¬ (now - staleUser.likesScrapedAt > REFRESH_THRESHOLD_IN_MS) then
        ⟨db,
         ⟨staleUser.likesScrapedAt + REFRESH_THRESHOLD_IN_MS,
          gov.SLEEP_TIME_MS * SLEEP_MULTIPLIER_ON_ERROR⟩,
         none⟩
      else
        let dbLikesIds := dbLikesIdsOf db staleUser.id
        match fetchResult with
        | .error e => ⟨db, gov, some e⟩
        | .ok twtrLikes =>
            let twtrLikesIds := twtrLikes.map (·.id)
            let _old := jsSetOf dbLikesIds
            let _new := jsSetOf twtrLikesIds
            let added := _new.filter (fun x => !(_old.contains x))
            let r := applyLikesWrites now writeOk staleUser.id twtrLikes db added
            match r.2 with
            | some e => ⟨r.1, gov, some e⟩
            | none =>
                let users' := updateUserRow r.1.users staleUser.id
                  (fun u => { u with likesScrapedAt := now })
                ⟨{ r.1 with users := users' }, gov, none⟩

/-! ## Per-iteration catch blocks -/

/-- The catch block of `scraperProfiles` (lines 262-275): only a
rate-limit error is recoverable; anything else is rethrown and
terminates the process. -/
def profilesCatch (gov : GovState) (error : LoopError) :
    Except LoopError GovState :=
  match error with
  | .rateLimited reset =>
      .ok ⟨reset * 1000, gov.SLEEP_TIME_MS * SLEEP_MULTIPLIER_ON_ERROR⟩
  | e => .error e

/-- The catch block of the likes `scraper` (lines 525-539): identical
policy to the profiles one. -/
def likesCatch (gov : GovState) (error : LoopError) :
    Except LoopError GovState :=
  match error with
  | .rateLimited reset =>
      .ok ⟨reset * 1000, gov.SLEEP_TIME_MS * SLEEP_MULTIPLIER_ON_ERROR⟩
  | e => .error e

/-- The catch block of `scraperFollowing` (lines 255-289): rate-limit,
5xx server errors (60s cooldown, interval untouched) and Prisma `P2002`
unique-constraint races (60s cooldown) are recoverable; anything else is
rethrown. -/
def followingCatch (now : Time) (gov : GovState) (error : LoopError) :
    Except LoopError GovState :=
  match error with
  | .rateLimited reset =>
      .ok ⟨reset * 1000, gov.SLEEP_TIME_MS * SLEEP_MULTIPLIER_ON_ERROR⟩
  | .apiError code =>
      if code = 500 ∨ code = 502 ∨ code = 503 ∨ code = 504 then
        .ok ⟨now + 60 * 1000, gov.SLEEP_TIME_MS⟩
      else .error (.apiError code)
  | .prismaP2002 => .ok ⟨now + 60 * 1000, gov.SLEEP_TIME_MS⟩
  | e => .error e

/-! ## Concrete sample data for witnesses and counterexamples -/

/-- A stored metadata sub-record whose `protected` flag is `prot`. -/
def sampleMeta (prot : Bool) : TwitterMetaData :=
  { createdAt := none, description := none, entities := none,
    location := none, pinned_tweet_id := none, profile_image_url := none,
    protectedF := prot, url := none, verified := prot }

/-- A tracked-account row with the given flags and staleness
timestamps. -/
def sampleUser (id : String) (marked accountExists : Bool)
    (prof likes follow : Time) (meta : Option TwitterMetaData) : TUser :=
  { id := id, name := id, username := id, accountCreatedAt := none,
    marked := marked, accountExists := accountExists,
    profileScrapedAt := prof, likesScrapedAt := likes,
    fullFollowingScrapedAt := follow, lastFollowingCount := 0,
    twitterMetaData := meta, twitterPublicMetrics := none }

/-- A remote user object with the given id and `verified` flag. -/
def sampleRemoteUser (id : String) (verified : Bool) : UserV2 :=
  { id := id, name := id, username := id, created_at := none,
    description := none, entities := none, location := none,
    pinned_tweet_id := none, profile_image_url := none,
    protectedF := false, public_metrics := none, url := none,
    verified := verified }

/-- The empty store. -/
def emptyDb : Db := ⟨[], [], [], []⟩

/-- The scheduler state at process start: `SLEEP_UNTIL` 0 and
`SLEEP_TIME_MS` 60 000. -/
def gov0 : GovState := ⟨0, 60000⟩

/-- The write oracle under which every store write succeeds. -/
def allOk : String → Bool := fun _ => true

/-! ## Lemmas about the diff engine -/

theorem mem_foldl_ins (l acc : List String) (x : String) :
    x ∈ l.foldl (fun a y => if y ∈ a then a else a ++ [y]) acc ↔
      x ∈ acc ∨ x ∈ l := by
  induction l generalizing acc with
  | nil => simp
  | cons y ys ih =>
      simp only [List.foldl_cons, List.mem_cons]
      by_cases h : y ∈ acc
      · rw [if_pos h, ih]
        constructor
        · tauto
        · rintro (hx | rfl | hx) <;> tauto
      · rw [if_neg h, ih]
        simp only [List.mem_append, List.mem_singleton]
        tauto

theorem mem_jsSetOf (l : List String) (x : String) :
    x ∈ jsSetOf l ↔ x ∈ l := by
  unfold jsSetOf
  rw [mem_foldl_ins]
  simp

theorem jsSetOf_self_filter (l : List String) :
    l.filter (fun x => !(l.contains x)) = [] := by
  rw [List.filter_eq_nil_iff]
  intro a ha
  simpa using ha

/-- C8: for all finite identifier sets A and B, `diff(A,B).added =
diff(B,A).removed`, `diff(A,A)` has both partitions empty, and the
result (as a set) does not depend on the order in which elements of
either input list are presented. -/
theorem C8_diff_algebra (A B A' B' : List String)
    (hA : A'.Perm A) (hB : B'.Perm B) :
    (diff A B).added = (diff B A).removed ∧
    diff A A = ⟨[], []⟩ ∧
    (diff A' B').added.toFinset = (diff A B).added.toFinset ∧
    (diff A' B').removed.toFinset = (diff A B).removed.toFinset := by
  refine ⟨rfl, ?_, ?_, ?_⟩
  · have h := jsSetOf_self_filter (jsSetOf A)
    simp [diff, h]
  · ext a
    simp [diff, List.mem_filter, mem_jsSetOf, hA.mem_iff, hB.mem_iff]
  · ext a
    simp [diff, List.mem_filter, mem_jsSetOf, hA.mem_iff, hB.mem_iff]

/-- Witness for C8 at the spec's own scenario sets, with permuted
presentations of both inputs. -/
theorem C8_diff_algebra_witness :
    (["C","B","A"] : List String).Perm ["A","B","C"] ∧
    (["D","C","B"] : List String).Perm ["B","C","D"] ∧
    ((diff ["A","B","C"] ["B","C","D"]).added
        = (diff ["B","C","D"] ["A","B","C"]).removed ∧
      diff ["A","B","C"] ["A","B","C"] = ⟨[], []⟩ ∧
      (diff ["C","B","A"] ["D","C","B"]).added.toFinset
        = (diff ["A","B","C"] ["B","C","D"]).added.toFinset ∧
      (diff ["C","B","A"] ["D","C","B"]).removed.toFinset
        = (diff ["A","B","C"] ["B","C","D"]).removed.toFinset) :=
  ⟨by decide, by decide,
   C8_diff_algebra ["A","B","C"] ["B","C","D"] ["C","B","A"] ["D","C","B"]
     (by decide) (by decide)⟩

/-! ## Reduction lemmas for the nothing-due branches -/

theorem profilesLoop_noDue (db : Db) (now : Time) (gov : GovState)
    (pf : Except LoopError (List UserV2)) (writeOk : String → Bool)
    (hp : TUser) (hrest : List TUser)
    (hsel : profilesStaleUsers db = hp :: hrest)
    (hdue : ¬ (now - hp.likesScrapedAt > REFRESH_THRESHOLD_IN_MS)) :
    profilesLoop db now gov pf writeOk
      = ⟨db, ⟨hp.likesScrapedAt + REFRESH_THRESHOLD_IN_MS,
              gov.SLEEP_TIME_MS * SLEEP_MULTIPLIER_ON_ERROR⟩, none⟩ := by
  unfold profilesLoop
  rw [hsel]
  dsimp only
  rw [if_pos hdue]

theorem likesLoop_noDue (db : Db) (now : Time) (gov : GovState)
    (lf : Except LoopError (List TweetV2)) (writeOk : String → Bool)
    (lu : TUser)
    (lsel : likesStaleUser db = some lu)
    (ldue : ¬ (now - lu.likesScrapedAt > REFRESH_THRESHOLD_IN_MS)) :
    likesLoop db now gov lf writeOk
      = ⟨db, ⟨lu.likesScrapedAt + REFRESH_THRESHOLD_IN_MS,
              gov.SLEEP_TIME_MS * SLEEP_MULTIPLIER_ON_ERROR⟩, none⟩ := by
  unfold likesLoop
  rw [lsel]
  dsimp only
  rw [if_pos ldue]

theorem followingLoop_noDue (db : Db) (now : Time) (gov : GovState)
    (ff : Except LoopError FollowingFetch) (writeOk : String → Bool)
    (fu : TUser)
    (fsel : followingStaleUser db = some fu)
    (fdue : ¬ (now - fu.fullFollowingScrapedAt > REFRESH_THRESHOLD_IN_MS)) :
    followingLoop db now gov ff writeOk
      = ⟨db, ⟨fu.fullFollowingScrapedAt + REFRESH_THRESHOLD_IN_MS,
              gov.SLEEP_TIME_MS⟩, none⟩ := by
  unfold followingLoop
  rw [fsel]
  dsimp only
  rw [if_pos fdue]

/-! ## C2: the profiles gate reads the likes staleness timestamp -/

/-- C2, evaluated at the failing input: one tracked account with
`profileScrapedAt = T − 9h` (due for a profile refresh) and
`likesScrapedAt = T − 2h`, at `now = T = 36000000`. The loop declares
nothing due and computes `sleepUntil = likesScrapedAt + 8h = T + 6h`,
gating the profiles track on the likes track's staleness timestamp; had
it used the profile timestamp, the account would have been fetched. -/
theorem C2_profiles_gate_reads_likes_timestamp :
    (profilesLoop ⟨[sampleUser "a" true true 3600000 28800000 0 none], [], [], []⟩
        36000000 gov0 (.ok []) allOk).db
      = ⟨[sampleUser "a" true true 3600000 28800000 0 none], [], [], []⟩ ∧
    (profilesLoop ⟨[sampleUser "a" true true 3600000 28800000 0 none], [], [], []⟩
        36000000 gov0 (.ok []) allOk).gov.SLEEP_UNTIL_TIMESTAMP_IN_MS
      = 28800000 + REFRESH_THRESHOLD_IN_MS ∧
    36000000 - 3600000 > REFRESH_THRESHOLD_IN_MS ∧
    28800000 + REFRESH_THRESHOLD_IN_MS ≠ 3600000 + REFRESH_THRESHOLD_IN_MS :=
  ⟨by decide, by decide, by decide, by decide⟩

/-! ## C4: backoff growth on no-due iterations -/

/-- C4 fails on the following track: a single eligible candidate within
the refresh threshold leaves `SLEEP_TIME_MS` at 60000 instead of
multiplying it by 1.1. -/
theorem C4_counterexample :
    followingStaleUser ⟨[sampleUser "a" true true 0 0 0 (some (sampleMeta false))],
        [], [], []⟩ = some (sampleUser "a" true true 0 0 0 (some (sampleMeta false))) ∧
    (followingLoop ⟨[sampleUser "a" true true 0 0 0 (some (sampleMeta false))],
        [], [], []⟩ 1000 gov0 (.ok ⟨[], 100, 0⟩) allOk).gov.SLEEP_TIME_MS
      = gov0.SLEEP_TIME_MS ∧
    gov0.SLEEP_TIME_MS ≠ gov0.SLEEP_TIME_MS * SLEEP_MULTIPLIER_ON_ERROR :=
  ⟨by decide, rfl, by norm_num [gov0, SLEEP_MULTIPLIER_ON_ERROR]⟩

/-- C4 amended: when candidates exist but none is past the 8-hour
threshold, the profiles and likes loops each multiply their base poll
interval by 1.1 and two consecutive such iterations compound it twice;
the following loop leaves its interval unchanged. -/
theorem C4_no_due_backoff (db : Db) (now : Time) (gov : GovState)
    (pf : Except LoopError (List UserV2)) (ff : Except LoopError FollowingFetch)
    (lf : Except LoopError (List TweetV2)) (writeOk : String → Bool)
    (hp fu lu : TUser) (hrest : List TUser)
    (hsel : profilesStaleUsers db = hp :: hrest)
    (hdue : ¬ (now - hp.likesScrapedAt > REFRESH_THRESHOLD_IN_MS))
    (lsel : likesStaleUser db = some lu)
    (ldue : ¬ (now - lu.likesScrapedAt > REFRESH_THRESHOLD_IN_MS))
    (fsel : followingStaleUser db = some fu)
    (fdue : ¬ (now - fu.fullFollowingScrapedAt > REFRESH_THRESHOLD_IN_MS)) :
    (profilesLoop db now gov pf writeOk).gov.SLEEP_TIME_MS
      = gov.SLEEP_TIME_MS * SLEEP_MULTIPLIER_ON_ERROR ∧
    ((profilesLoop (profilesLoop db now gov pf writeOk).db now
        (profilesLoop db now gov pf writeOk).gov pf writeOk).gov.SLEEP_TIME_MS
      = gov.SLEEP_TIME_MS * SLEEP_MULTIPLIER_ON_ERROR * SLEEP_MULTIPLIER_ON_ERROR) ∧
    (likesLoop db now gov lf writeOk).gov.SLEEP_TIME_MS
      = gov.SLEEP_TIME_MS * SLEEP_MULTIPLIER_ON_ERROR ∧
    ((likesLoop (likesLoop db now gov lf writeOk).db now
        (likesLoop db now gov lf writeOk).gov lf writeOk).gov.SLEEP_TIME_MS
      = gov.SLEEP_TIME_MS * SLEEP_MULTIPLIER_ON_ERROR * SLEEP_MULTIPLIER_ON_ERROR) ∧
    (followingLoop db now gov ff writeOk).gov.SLEEP_TIME_MS = gov.SLEEP_TIME_MS ∧
    ((followingLoop (followingLoop db now gov ff writeOk).db now
        (followingLoop db now gov ff writeOk).gov ff writeOk).gov.SLEEP_TIME_MS
      = gov.SLEEP_TIME_MS) := by
  have hP : ∀ g : GovState, profilesLoop db now g pf writeOk
      = ⟨db, ⟨hp.likesScrapedAt + REFRESH_THRESHOLD_IN_MS,
              g.SLEEP_TIME_MS * SLEEP_MULTIPLIER_ON_ERROR⟩, none⟩ :=
    fun g => profilesLoop_noDue db now g pf writeOk hp hrest hsel hdue
  have hL : ∀ g : GovState, likesLoop db now g lf writeOk
      = ⟨db, ⟨lu.likesScrapedAt + REFRESH_THRESHOLD_IN_MS,
              g.SLEEP_TIME_MS * SLEEP_MULTIPLIER_ON_ERROR⟩, none⟩ :=
    fun g => likesLoop_noDue db now g lf writeOk lu lsel ldue
  have hF : ∀ g : GovState, followingLoop db now g ff writeOk
      = ⟨db, ⟨fu.fullFollowingScrapedAt + REFRESH_THRESHOLD_IN_MS,
              g.SLEEP_TIME_MS⟩, none⟩ :=
    fun g => followingLoop_noDue db now g ff writeOk fu fsel fdue
  refine ⟨?_, ?_, ?_, ?_, ?_, ?_⟩
  · simp only [hP]
  · simp only [hP]
  · simp only [hL]
  · simp only [hL]
  · simp only [hF]
  · simp only [hF]

/-- Witness for C4 at a store with one eligible, recently-synced
account. -/
theorem C4_no_due_backoff_witness :
    profilesStaleUsers ⟨[sampleUser "a" true true 0 0 0 (some (sampleMeta false))],
        [], [], []⟩ = [sampleUser "a" true true 0 0 0 (some (sampleMeta false))] ∧
    ¬ ((1000 : Int) - (sampleUser "a" true true 0 0 0 (some (sampleMeta false))).likesScrapedAt
        > REFRESH_THRESHOLD_IN_MS) ∧
    (profilesLoop ⟨[sampleUser "a" true true 0 0 0 (some (sampleMeta false))],
        [], [], []⟩ 1000 gov0 (.ok []) allOk).gov.SLEEP_TIME_MS
      = gov0.SLEEP_TIME_MS * SLEEP_MULTIPLIER_ON_ERROR ∧
    (followingLoop ⟨[sampleUser "a" true true 0 0 0 (some (sampleMeta false))],
        [], [], []⟩ 1000 gov0 (.ok ⟨[], 100, 0⟩) allOk).gov.SLEEP_TIME_MS
      = gov0.SLEEP_TIME_MS := by
  refine ⟨by decide, by decide, ?_, ?_⟩
  · exact (C4_no_due_backoff
      ⟨[sampleUser "a" true true 0 0 0 (some (sampleMeta false))], [], [], []⟩
      1000 gov0 (.ok []) (.ok ⟨[], 100, 0⟩) (.ok []) allOk
      (sampleUser "a" true true 0 0 0 (some (sampleMeta false)))
      (sampleUser "a" true true 0 0 0 (some (sampleMeta false)))
      (sampleUser "a" true true 0 0 0 (some (sampleMeta false))) []
      (by decide) (by decide) (by decide) (by decide) (by decide) (by decide)).1
  · exact (C4_no_due_backoff
      ⟨[sampleUser "a" true true 0 0 0 (some (sampleMeta false))], [], [], []⟩
      1000 gov0 (.ok []) (.ok ⟨[], 100, 0⟩) (.ok []) allOk
      (sampleUser "a" true true 0 0 0 (some (sampleMeta false)))
      (sampleUser "a" true true 0 0 0 (some (sampleMeta false)))
      (sampleUser "a" true true 0 0 0 (some (sampleMeta false))) []
      (by decide) (by decide) (by decide) (by decide) (by decide) (by decide)).2.2.2.2.1

/-! ## C5: transient server errors -/

/-- C5 fails on the profiles track: a 500-class `ApiResponseError` is
rethrown by the profiles catch block (terminating the process) instead
of being absorbed with a 60-second cooldown. -/
theorem C5_counterexample :
    profilesCatch gov0 (.apiError 500) = .error (.apiError 500) ∧
    likesCatch gov0 (.apiError 500) = .error (.apiError 500) := ⟨rfl, rfl⟩

/-- C5 amended: only the following track treats a 5xx remote failure as
recoverable — its catch block sets `sleepUntil = now + 60s` and leaves
the base poll interval unchanged; the profiles and likes catch blocks
rethrow the error, which terminates the process. -/
theorem C5_transient_error_following_only (now : Time) (gov : GovState)
    (code : Int) (h : code = 500 ∨ code = 502 ∨ code = 503 ∨ code = 504) :
    followingCatch now gov (.apiError code)
      = .ok ⟨now + 60 * 1000, gov.SLEEP_TIME_MS⟩ ∧
    profilesCatch gov (.apiError code) = .error (.apiError code) ∧
    likesCatch gov (.apiError code) = .error (.apiError code) := by
  refine ⟨?_, rfl, rfl⟩
  unfold followingCatch
  dsimp only
  rw [if_pos h]

/-- Witness for C5 at status code 500. -/
theorem C5_transient_error_following_only_witness :
    ((500 : Int) = 500 ∨ (500 : Int) = 502 ∨ (500 : Int) = 503 ∨ (500 : Int) = 504) ∧
    (followingCatch 0 gov0 (.apiError 500)
        = .ok ⟨0 + 60 * 1000, gov0.SLEEP_TIME_MS⟩ ∧
      profilesCatch gov0 (.apiError 500) = .error (.apiError 500) ∧
      likesCatch gov0 (.apiError 500) = .error (.apiError 500)) :=
  ⟨Or.inl rfl, C5_transient_error_following_only 0 gov0 500 (Or.inl rfl)⟩

/-! ## C9: rate-limit recovery -/

/-- C9: on a `RateLimited{reset}` fetch failure, every track's catch
block sets `sleepUntil = reset × 1000` (epoch seconds to milliseconds),
multiplies the base poll interval by 1.1, and returns control to the
loop (an `ok` outcome) instead of rethrowing; and an erroring fetch
leaves the store untouched in that iteration, on every track. -/
theorem C9_rate_limited_recovery (db : Db) (now : Time) (gov : GovState)
    (reset : Int) (e : LoopError) (writeOk : String → Bool) :
    profilesCatch gov (.rateLimited reset)
      = .ok ⟨reset * 1000, gov.SLEEP_TIME_MS * SLEEP_MULTIPLIER_ON_ERROR⟩ ∧
    likesCatch gov (.rateLimited reset)
      = .ok ⟨reset * 1000, gov.SLEEP_TIME_MS * SLEEP_MULTIPLIER_ON_ERROR⟩ ∧
    followingCatch now gov (.rateLimited reset)
      = .ok ⟨reset * 1000, gov.SLEEP_TIME_MS * SLEEP_MULTIPLIER_ON_ERROR⟩ ∧
    (profilesLoop db now gov (.error e) writeOk).db = db ∧
    (followingLoop db now gov (.error e) writeOk).db = db ∧
    (likesLoop db now gov (.error e) writeOk).db = db := by
  refine ⟨rfl, rfl, rfl, ?_, ?_, ?_⟩
  · unfold profilesLoop
    split
    · rfl
    · split
      · rfl
      · rfl
  · unfold followingLoop
    split
    · rfl
    · split
      · rfl
      · rfl
  · unfold likesLoop
    split
    · rfl
    · split
      · rfl
      · rfl

/-! ## C6: added edge with no snapshot anywhere -/

/-- C6 fails as stated: calling the following track's `writeChangesToDb`
for an added id with no snapshot in the fetched batch and no existing
local row dereferences the missing user (`followedUser!.id`) and raises
a fatal error instead of falling back. -/
theorem C6_counterexample :
    writeChangesToDbFollowing emptyDb "u" [] "x" false
      = .error .nullAssertion ∧
    followingCatch 0 gov0 .nullAssertion = .error .nullAssertion :=
  ⟨rfl, rfl⟩

/-- C6 amended: the crash path is unreachable for added edges in the
loop itself — every id in the diff's `added` partition comes from the
fetched batch, so its snapshot is present and `writeChangesToDb`
succeeds without taking the missing-row fallback. -/
theorem C6_added_ids_never_crash (db : Db) (userId : String)
    (twtrFollowing : List UserV2) (dbIds : List String) (id : String)
    (h : id ∈ (diff dbIds (twtrFollowing.map (fun x => x.id))).added) :
    (twtrFollowing.find? (fun x => x.id == id)).isSome ∧
    ∀ rm : Bool, ∃ db',
      writeChangesToDbFollowing db userId twtrFollowing id rm = .ok db' := by
  have h' : id ∈ (jsSetOf (twtrFollowing.map (fun x => x.id))).filter
      (fun x => !((jsSetOf dbIds).contains x)) := h
  have hmem : id ∈ twtrFollowing.map (fun x => x.id) :=
    (mem_jsSetOf _ _).mp (List.mem_filter.mp h').1
  rcases List.mem_map.mp hmem with ⟨u, hu, hid⟩
  have hfind : (twtrFollowing.find? (fun x => x.id == id)).isSome := by
    rw [List.find?_isSome]
    exact ⟨u, hu, by simp [hid]⟩
  refine ⟨hfind, fun rm => ?_⟩
  rcases Option.isSome_iff_exists.mp hfind with ⟨v, hv⟩
  refine ⟨appendConnection (upsertUser db v).1 userId ((upsertUser db v).2).id rm, ?_⟩
  unfold writeChangesToDbFollowing
  rw [hv]

/-- Witness for C6 amended: a fetched batch containing the added id. -/
theorem C6_added_ids_never_crash_witness :
    ("x" ∈ (diff [] ([sampleRemoteUser "x" false].map (fun x => x.id))).added) ∧
    (([sampleRemoteUser "x" false].find? (fun x => x.id == "x")).isSome ∧
      ∀ rm : Bool, ∃ db',
        writeChangesToDbFollowing emptyDb "u" [sampleRemoteUser "x" false] "x" rm
          = .ok db') :=
  ⟨by decide,
   C6_added_ids_never_crash emptyDb "u" [sampleRemoteUser "x" false] [] "x"
     (by decide)⟩

/-! ## C7: the following edge-version log -/

/-- All persisted rows for a (from, to) pair. -/
def pairRows (db : Db) (f t : String) : List TConnection :=
  db.connections.filter (fun c => c.fromId == f && c.toId == t)

/-- The persisted version sequence for a (from, to) pair. -/
def pairVersions (db : Db) (f t : String) : List Int :=
  (pairRows db f t).map (fun c => c.version)

/-- The persisted status sequence for a (from, to) pair. -/
def pairStatuses (db : Db) (f t : String) : List ConnStatus :=
  (pairRows db f t).map (fun c => c.status)

/-- A single-writer sequence of reconciliation appends for one pair,
one append per diff flag (`false` = added, `true` = removed). -/
def appendRun (db : Db) (f t : String) (flags : List Bool) : Db :=
  flags.foldl (fun d fl => appendConnection d f t fl) db

theorem findLatest_append_matching (conns : List TConnection) (f t : String)
    (c : TConnection) (hf : c.fromId = f) (ht : c.toId = t) :
    findLatest (conns ++ [c]) f t
      = match findLatest conns f t with
        | none => some c
        | some b => if c.version > b.version then some c else some b := by
  unfold findLatest
  rw [List.filter_append, List.foldl_append]
  simp [hf, ht]

theorem nextVersion_append (conns : List TConnection) (f t : String)
    (c : TConnection) (hf : c.fromId = f) (ht : c.toId = t)
    (hv : c.version = nextVersion conns f t) :
    nextVersion (conns ++ [c]) f t = nextVersion conns f t + 1 := by
  rw [nextVersion, findLatest_append_matching conns f t c hf ht]
  cases h : findLatest conns f t with
  | none =>
      have : c.version = 0 := by rw [hv, nextVersion, h]
      simp [this, nextVersion, h]
  | some b =>
      have hcv : c.version = b.version + 1 := by rw [hv, nextVersion, h]
      have hgt : c.version > b.version := by rw [hcv]; exact lt_add_one _
      simp [hgt, hcv, nextVersion, h]

theorem pairRows_appendConnection (db : Db) (f t : String) (fl : Bool) :
    pairRows (appendConnection db f t fl) f t
      = pairRows db f t ++ [⟨f, t, nextVersion db.connections f t,
          if fl then ConnStatus.DISCONNECTED else ConnStatus.CONNECTED⟩] := by
  unfold pairRows appendConnection
  rw [List.filter_append]
  simp

theorem connections_appendConnection (db : Db) (f t : String) (fl : Bool) :
    (appendConnection db f t fl).connections
      = db.connections ++ [⟨f, t, nextVersion db.connections f t,
          if fl then ConnStatus.DISCONNECTED else ConnStatus.CONNECTED⟩] := rfl

/-- A run of appends extends the pair's version sequence by consecutive
integers starting at the pre-run next version, and its status sequence
by the statuses the flags dictate. -/
theorem appendRun_log (db : Db) (f t : String) (flags : List Bool) :
    pairVersions (appendRun db f t flags) f t
      = pairVersions db f t
        ++ (List.range flags.length).map
             (fun (i : ℕ) => nextVersion db.connections f t + (i : Int)) ∧
    pairStatuses (appendRun db f t flags) f t
      = pairStatuses db f t
        ++ flags.map
             (fun fl => if fl then ConnStatus.DISCONNECTED else ConnStatus.CONNECTED) := by
  induction flags generalizing db with
  | nil => simp [appendRun]
  | cons fl rest ih =>
      have hrun : appendRun db f t (fl :: rest)
          = appendRun (appendConnection db f t fl) f t rest := rfl
      obtain ⟨ihv, ihs⟩ := ih (appendConnection db f t fl)
      have hnext : nextVersion (appendConnection db f t fl).connections f t
          = nextVersion db.connections f t + 1 := by
        rw [connections_appendConnection]
        exact nextVersion_append db.connections f t _ rfl rfl rfl
      have hpv : pairVersions (appendConnection db f t fl) f t
          = pairVersions db f t ++ [nextVersion db.connections f t] := by
        unfold pairVersions
        rw [pairRows_appendConnection]
        simp
      have hps : pairStatuses (appendConnection db f t fl) f t
          = pairStatuses db f t
            ++ [if fl then ConnStatus.DISCONNECTED else ConnStatus.CONNECTED] := by
        unfold pairStatuses
        rw [pairRows_appendConnection]
        simp
      constructor
      · rw [hrun, ihv, hpv, hnext, List.append_assoc]
        congr 1
        rw [List.length_cons, List.range_succ_eq_map, List.map_cons, List.map_map]
        simp only [Nat.cast_zero, add_zero, List.singleton_append]
        congr 1
        apply List.map_congr_left
        intro i _
        simp only [Function.comp_apply]
        push_cast
        ring
      · rw [hrun, ihs, hps, List.append_assoc]
        congr 1

theorem upsertUser_connections (db : Db) (nu : UserV2) :
    (upsertUser db nu).1.connections = db.connections := by
  unfold upsertUser
  cases getUser db.users nu.id <;> rfl

theorem upsertUser_row_id (db : Db) (nu : UserV2) :
    ((upsertUser db nu).2).id = nu.id := by
  unfold upsertUser
  cases getUser db.users nu.id <;> rfl

/-- A successful `writeChangesToDb` appends exactly one row for
(userId, followedUserId), at the pair's current highest version plus
one (0 when the pair has no row), with the status its flag dictates. -/
theorem writeChanges_connections (db : Db) (userId : String) (tw : List UserV2)
    (fid : String) (rm : Bool) (db' : Db)
    (hw : writeChangesToDbFollowing db userId tw fid rm = .ok db') :
    db'.connections
      = db.connections ++ [⟨userId, fid, nextVersion db.connections userId fid,
          if rm then ConnStatus.DISCONNECTED else ConnStatus.CONNECTED⟩] := by
  unfold writeChangesToDbFollowing at hw
  cases hfi : tw.find? (fun x => x.id == fid) with
  | some info =>
      rw [hfi] at hw
      dsimp only at hw
      have hid : info.id = fid := by
        have := List.find?_some hfi
        simpa using this
      simp only [Except.ok.injEq] at hw
      subst hw
      rw [connections_appendConnection, upsertUser_connections,
        upsertUser_row_id, hid]
  | none =>
      rw [hfi] at hw
      dsimp only at hw
      cases hg : getUser db.users fid with
      | none => rw [hg] at hw; cases hw
      | some u =>
          rw [hg] at hw
          dsimp only at hw
          have hid : u.id = fid := by
            have := List.find?_some hg
            simpa using this
          simp only [Except.ok.injEq] at hw
          subst hw
          rw [connections_appendConnection, hid]

/-- C7: each reconciliation append reads the pair's current highest
version and writes one row at that version plus one (CONNECTED for an
added edge, DISCONNECTED for a removed one), so a single-writer
sequence of appends extends the pair's persisted version sequence by
consecutive integers — strictly increasing with no gaps. -/
theorem C7_version_log_consecutive (db db0 db' : Db) (f t userId fid : String)
    (flags : List Bool) (tw : List UserV2) (rm : Bool)
    (hw : writeChangesToDbFollowing db0 userId tw fid rm = .ok db') :
    pairVersions (appendRun db f t flags) f t
      = pairVersions db f t
        ++ (List.range flags.length).map
             (fun (i : ℕ) => nextVersion db.connections f t + (i : Int)) ∧
    pairStatuses (appendRun db f t flags) f t
      = pairStatuses db f t
        ++ flags.map
             (fun fl => if fl then ConnStatus.DISCONNECTED else ConnStatus.CONNECTED) ∧
    db'.connections
      = db0.connections ++ [⟨userId, fid, nextVersion db0.connections userId fid,
          if rm then ConnStatus.DISCONNECTED else ConnStatus.CONNECTED⟩] :=
  ⟨(appendRun_log db f t flags).1, (appendRun_log db f t flags).2,
   writeChanges_connections db0 userId tw fid rm db' hw⟩

/-- Witness for C7: three appends on an empty store, and one concrete
successful reconciliation write. -/
theorem C7_version_log_consecutive_witness :
    writeChangesToDbFollowing emptyDb "u" [sampleRemoteUser "x" false] "x" false
      = .ok (appendConnection (upsertUser emptyDb (sampleRemoteUser "x" false)).1
          "u" ((upsertUser emptyDb (sampleRemoteUser "x" false)).2).id false) ∧
    pairVersions (appendRun emptyDb "f" "t" [false, true, false]) "f" "t"
      = pairVersions emptyDb "f" "t"
        ++ (List.range 3).map
             (fun (i : ℕ) => nextVersion emptyDb.connections "f" "t" + (i : Int)) :=
  ⟨rfl,
   (C7_version_log_consecutive emptyDb emptyDb
      (appendConnection (upsertUser emptyDb (sampleRemoteUser "x" false)).1
        "u" ((upsertUser emptyDb (sampleRemoteUser "x" false)).2).id false)
      "f" "t" "u" "x" [false, true, false] [sampleRemoteUser "x" false] false
      rfl).1⟩

/-! ## C10: the stored protected flag comes from the verified attribute -/

/-- C10: in both user-entity write paths (the profiles loop's metadata
update and the following track's `upsertUser`) the stored `protected`
field is populated from the remote user's `verified` attribute, for
every fetched user; and the edge-track selectors' protected-account
exclusion filters on exactly that stored field. -/
theorem C10_protected_stored_from_verified :
    (∀ user : UserV2, (profilesTwitterMetaData user).protectedF = user.verified) ∧
    (∀ newUser : UserV2, (upsertUserMetaData newUser).protectedF = newUser.verified) ∧
    (∀ (db : Db) (newUser : UserV2), ((upsertUser db newUser).2).twitterMetaData
        = some (upsertUserMetaData newUser)) ∧
    (∀ (now : Time) (user : UserV2) (u : TUser),
        (profileUpdateRow now user u).twitterMetaData
          = some (profilesTwitterMetaData user)) ∧
    (∀ (db : Db) (u : TUser), u ∈ edgeEligible db →
        ∃ m, u.twitterMetaData = some m ∧ m.protectedF = false) := by
  refine ⟨fun _ => rfl, fun _ => rfl, ?_, fun _ _ _ => rfl, ?_⟩
  · intro db newUser
    unfold upsertUser
    cases getUser db.users newUser.id <;> rfl
  · intro db u hu
    have hpred := (List.mem_filter.mp hu).2
    cases hm : u.twitterMetaData with
    | none => rw [hm] at hpred; simp at hpred
    | some m =>
        rw [hm] at hpred
        simp only [Bool.and_eq_true, Bool.not_eq_true'] at hpred
        exact ⟨m, rfl, hpred.2⟩

/-- Witness for C10 at one eligible stored account. -/
theorem C10_protected_stored_from_verified_witness :
    sampleUser "a" true true 0 0 0 (some (sampleMeta false))
      ∈ edgeEligible ⟨[sampleUser "a" true true 0 0 0 (some (sampleMeta false))],
          [], [], []⟩ ∧
    (∃ m, (sampleUser "a" true true 0 0 0 (some (sampleMeta false))).twitterMetaData
        = some m ∧ m.protectedF = false) :=
  ⟨by decide,
   C10_protected_stored_from_verified.2.2.2.2
     ⟨[sampleUser "a" true true 0 0 0 (some (sampleMeta false))], [], [], []⟩
     (sampleUser "a" true true 0 0 0 (some (sampleMeta false))) (by decide)⟩

/-! ## Store-write characterization lemmas (for C1 and C3) -/

theorem getUser_updateUserRow (users : List TUser) (i j : String)
    (f : TUser → TUser) (hf : ∀ u, u.id = i → (f u).id = u.id) :
    getUser (updateUserRow users i f) j
      = if j = i then (getUser users j).map f else getUser users j := by
  unfold getUser updateUserRow
  rw [List.find?_map]
  have hpred : ((fun u : TUser => u.id == j) ∘ fun u : TUser =>
      if u.id == i then f u else u) = fun u : TUser => u.id == j := by
    funext u
    by_cases h : u.id == i
    · simp [Function.comp, h, hf u (eq_of_beq h)]
    · simp [Function.comp, h]
  rw [hpred]
  cases hgj : users.find? (fun u => u.id == j) with
  | none => by_cases hji : j = i <;> simp [hji]
  | some u =>
      have hid : u.id = j := by simpa using List.find?_some hgj
      by_cases hji : j = i
      · rw [if_pos hji]
        simp [Option.map_some, hid, hji]
      · rw [if_neg hji]
        have : (u.id == i) = false := by
          rw [hid]
          exact beq_false_of_ne hji
        simp [this]
        exact fun h => absurd (hid.symm.trans h) hji

theorem markRemoved_allOk (ids : List String) (db : Db) (j : String) :
    (markRemoved allOk db ids).2 = none ∧
    getUser (markRemoved allOk db ids).1.users j
      = if j ∈ ids then
          (getUser db.users j).map (fun u => { u with accountExists := false })
        else getUser db.users j := by
  induction ids generalizing db with
  | nil => simp [markRemoved]
  | cons id rest ih =>
      simp only [markRemoved, allOk, if_true]
      obtain ⟨ih1, ih2⟩ := ih { db with users := updateUserRow db.users id (fun u => { u with accountExists := false }) }
      refine ⟨ih1, ?_⟩
      rw [ih2]
      rw [getUser_updateUserRow db.users id j (fun u => { u with accountExists := false }) (fun u _ => rfl)]
      by_cases hji : j = id
      · have hmem : j ∈ id :: rest := by simp [hji]
        rw [if_pos hji, if_pos hmem]
        by_cases hr : j ∈ rest
        · rw [if_pos hr, Option.map_map]
          rfl
        · rw [if_neg hr]
      · rw [if_neg hji]
        by_cases hr : j ∈ rest
        · have hmem : j ∈ id :: rest := by simp [hr]
          rw [if_pos hr, if_pos hmem]
        · have hmem : j ∉ id :: rest := by simp [hji, hr]
          rw [if_neg hr, if_neg hmem]

theorem updateProfiles_not_mentioned (now : Time) (data : List UserV2)
    (db : Db) (j : String) (writeOk : String → Bool)
    (hj : j ∉ data.map (fun x => x.id)) :
    getUser (updateProfiles now writeOk db data).1.users j
      = getUser db.users j := by
  induction data generalizing db with
  | nil => rfl
  | cons user rest ih =>
      have hj1 : ¬ j = user.id := fun h => hj (by simp [h])
      have hj2 : j ∉ rest.map (fun x => x.id) := fun h => hj (by simp [h])
      simp only [updateProfiles]
      by_cases hok : writeOk user.id
      · rw [if_pos hok]
        rw [ih _ hj2]
        rw [getUser_updateUserRow db.users user.id j (profileUpdateRow now user) (fun u _ => rfl)]
        rw [if_neg hj1]
      · rw [if_neg hok]

theorem profilesLoop_due (db : Db) (now : Time) (gov : GovState)
    (data : List UserV2) (writeOk : String → Bool)
    (hp : TUser) (hrest : List TUser)
    (hsel : profilesStaleUsers db = hp :: hrest)
    (hdue : now - hp.likesScrapedAt > REFRESH_THRESHOLD_IN_MS) :
    profilesLoop db now gov (.ok data) writeOk
      = (let requestIds := data.map (fun x => x.id)
         let removedIds := ((hp :: hrest).map (fun x => x.id)).filter
           (fun id => !(requestIds.contains id))
         let r1 := markRemoved writeOk db removedIds
         match r1.2 with
         | some e => ⟨r1.1, gov, some e⟩
         | none =>
             let r2 := updateProfiles now writeOk r1.1 data
             ⟨r2.1, gov, r2.2⟩) := by
  unfold profilesLoop
  rw [hsel]
  dsimp only
  rw [if_neg (not_not_intro hdue)]

/-- C1 amended: an id requested in the batched profile fetch but absent
from the response is marked `accountExists = false`, but its profile
staleness timestamp is not advanced — the row keeps its previous
`profileScrapedAt`; only ids present in the response are advanced. -/
theorem C1_missing_id_flagged_not_advanced (db : Db) (now : Time)
    (gov : GovState) (data : List UserV2) (hp : TUser) (hrest : List TUser)
    (id : String) (u : TUser)
    (hsel : profilesStaleUsers db = hp :: hrest)
    (hdue : now - hp.likesScrapedAt > REFRESH_THRESHOLD_IN_MS)
    (hid : id ∈ (hp :: hrest).map (fun x => x.id))
    (habs : id ∉ data.map (fun x => x.id))
    (hu : getUser db.users id = some u) :
    getUser (profilesLoop db now gov (.ok data) allOk).db.users id
      = some { u with accountExists := false } ∧
    ({ u with accountExists := false } : TUser).profileScrapedAt
      = u.profileScrapedAt := by
  rw [profilesLoop_due db now gov data allOk hp hrest hsel hdue]
  dsimp only
  have hrem : id ∈ ((hp :: hrest).map (fun x => x.id)).filter
      (fun i => !((data.map (fun x => x.id)).contains i)) := by
    rw [List.mem_filter]
    exact ⟨hid, by simpa using habs⟩
  obtain ⟨hm1, hm2⟩ := markRemoved_allOk
    (((hp :: hrest).map (fun x => x.id)).filter
      (fun i => !((data.map (fun x => x.id)).contains i))) db id
  rw [hm1]
  dsimp only
  rw [updateProfiles_not_mentioned now data _ id allOk habs]
  rw [hm2, if_pos hrem, hu]
  exact ⟨rfl, rfl⟩

theorem upsertTweet_users (db : Db) (t : TweetV2) :
    (upsertTweet db t).1.users = db.users := by
  unfold upsertTweet
  cases getTweet db.tweets t.id <;> rfl

theorem writeChangesToDbLikes_users (db : Db) (userId : String)
    (tw : List TweetV2) (id : String) (now : Time) :
    (writeChangesToDbLikes db userId tw id now).users = db.users := by
  unfold writeChangesToDbLikes
  cases hfi : tw.find? (fun x => x.id == id) with
  | some info =>
      dsimp only
      rw [upsertTweet_users]
      split
      · exact upsertTweet_users db info
      · rfl
  | none =>
      dsimp only
      cases getTweet db.tweets id with
      | none => rfl
      | some t =>
          dsimp only
          split <;> rfl

theorem getUser_append_left (l1 l2 : List TUser) (j : String) (u : TUser)
    (hu : getUser l1 j = some u) : getUser (l1 ++ l2) j = some u := by
  unfold getUser at hu ⊢
  rw [List.find?_append, hu]
  rfl

theorem getUser_upsertUser (db : Db) (nu : UserV2) (j : String) (u : TUser)
    (hu : getUser db.users j = some u) :
    ∃ u', getUser (upsertUser db nu).1.users j = some u' ∧
      u'.fullFollowingScrapedAt = u.fullFollowingScrapedAt ∧
      u'.likesScrapedAt = u.likesScrapedAt := by
  unfold upsertUser
  cases hg : getUser db.users nu.id with
  | some v =>
      dsimp only
      rw [getUser_updateUserRow db.users nu.id j (userUpsert nu)
        (fun w hw => by simp [userUpsert, hw])]
      by_cases hji : j = nu.id
      · rw [if_pos hji, hu]
        exact ⟨userUpsert nu u, rfl, rfl, rfl⟩
      · rw [if_neg hji, hu]
        exact ⟨u, rfl, rfl, rfl⟩
  | none =>
      dsimp only
      exact ⟨u, getUser_append_left db.users [userCreate nu] j u hu, rfl, rfl⟩

theorem writeChanges_preserves_ts (db : Db) (userId : String)
    (tw : List UserV2) (fid : String) (rm : Bool) (db' : Db)
    (hw : writeChangesToDbFollowing db userId tw fid rm = .ok db')
    (j : String) (u : TUser) (hu : getUser db.users j = some u) :
    ∃ u', getUser db'.users j = some u' ∧
      u'.fullFollowingScrapedAt = u.fullFollowingScrapedAt ∧
      u'.likesScrapedAt = u.likesScrapedAt := by
  unfold writeChangesToDbFollowing at hw
  cases hfi : tw.find? (fun x => x.id == fid) with
  | some info =>
      rw [hfi] at hw
      dsimp only at hw
      simp only [Except.ok.injEq] at hw
      subst hw
      exact getUser_upsertUser db info j u hu
  | none =>
      rw [hfi] at hw
      dsimp only at hw
      cases hg : getUser db.users fid with
      | none => rw [hg] at hw; cases hw
      | some v =>
          rw [hg] at hw
          dsimp only at hw
          simp only [Except.ok.injEq] at hw
          subst hw
          exact ⟨u, hu, rfl, rfl⟩

theorem applyFollowingWrites_preserves (writeOk : String → Bool)
    (userId : String) (tw : List UserV2) (rm : Bool) (ids : List String)
    (db : Db) (j : String) (u : TUser) (hu : getUser db.users j = some u) :
    ∃ u', getUser (applyFollowingWrites writeOk userId tw rm db ids).1.users j
        = some u' ∧
      u'.fullFollowingScrapedAt = u.fullFollowingScrapedAt ∧
      u'.likesScrapedAt = u.likesScrapedAt := by
  induction ids generalizing db u with
  | nil => exact ⟨u, hu, rfl, rfl⟩
  | cons id rest ih =>
      simp only [applyFollowingWrites]
      by_cases hok : writeOk id
      · rw [if_pos hok]
        cases hw : writeChangesToDbFollowing db userId tw id rm with
        | error e => exact ⟨u, hu, rfl, rfl⟩
        | ok db2 =>
            obtain ⟨u2, h1, h2, h3⟩ :=
              writeChanges_preserves_ts db userId tw id rm db2 hw j u hu
            obtain ⟨u3, h4, h5, h6⟩ := ih db2 u2 h1
            exact ⟨u3, h4, h5.trans h2, h6.trans h3⟩
      · rw [if_neg hok]
        exact ⟨u, hu, rfl, rfl⟩

theorem followingLoop_error_preserves (db : Db) (now : Time) (gov : GovState)
    (ff : Except LoopError FollowingFetch) (writeOk : String → Bool)
    (j : String) (u : TUser) (hu : getUser db.users j = some u)
    (herr : (followingLoop db now gov ff writeOk).error.isSome) :
    ∃ u', getUser (followingLoop db now gov ff writeOk).db.users j = some u' ∧
      u'.fullFollowingScrapedAt = u.fullFollowingScrapedAt := by
  revert herr
  unfold followingLoop
  split
  · intro h
    simp at h
  · next staleUser hsel =>
    split
    · intro h
      simp at h
    · cases ff with
      | error e =>
          intro _
          exact ⟨u, hu, rfl⟩
      | ok request =>
          dsimp only
          split
          · intro h
            simp at h
          · split
            · next e heq =>
                intro _
                obtain ⟨u2, h1, h2, h3⟩ := applyFollowingWrites_preserves
                  writeOk staleUser.id request.users false _ db j u hu
                exact ⟨u2, h1, h2⟩
            · next heq =>
                split
                · next e2 heq2 =>
                    intro _
                    obtain ⟨u2, h1, h2, h3⟩ := applyFollowingWrites_preserves
                      writeOk staleUser.id request.users false _ db j u hu
                    obtain ⟨u4, h4, h5, h6⟩ := applyFollowingWrites_preserves
                      writeOk staleUser.id request.users true _ _ j u2 h1
                    exact ⟨u4, h4, h5.trans h2⟩
                · intro h
                  simp at h

theorem applyLikesWrites_users (now : Time) (writeOk : String → Bool)
    (userId : String) (tw : List TweetV2) (ids : List String) (db : Db) :
    (applyLikesWrites now writeOk userId tw db ids).1.users = db.users := by
  induction ids generalizing db with
  | nil => rfl
  | cons id rest ih =>
      simp only [applyLikesWrites]
      by_cases hok : writeOk id
      · rw [if_pos hok]
        rw [ih]
        exact writeChangesToDbLikes_users db userId tw id now
      · rw [if_neg hok]

theorem likesLoop_error_users (db : Db) (now : Time) (gov : GovState)
    (lf : Except LoopError (List TweetV2)) (writeOk : String → Bool)
    (herr : (likesLoop db now gov lf writeOk).error.isSome) :
    (likesLoop db now gov lf writeOk).db.users = db.users := by
  revert herr
  unfold likesLoop
  split
  · intro h
    simp at h
  · next staleUser hsel =>
    split
    · intro h
      simp at h
    · cases lf with
      | error e =>
          intro _
          rfl
      | ok twtrLikes =>
          dsimp only
          split
          · next e heq =>
              intro _
              exact applyLikesWrites_users now writeOk staleUser.id twtrLikes _ db
          · intro h
            simp at h

/-- A remote tweet object with the given id, used as concrete test
data. -/
def sampleTweet (id : String) : TweetV2 :=
  { id := id, text := "", created_at := none, author_id := none,
    conversation_id := none, referenced_tweets := none, attachments := none,
    geo := none, context_annotations := none, entities := none,
    withheld := none, possibly_sensitive := false, lang := "en",
    reply_settings := "", source := "", public_metrics := none }

/-- C1 fails as stated at this input: ids "a" and "b" are both
requested, the response only contains "a"; afterwards "b" is flagged
`accountExists = false` but its `profileScrapedAt` is still 0, not the
iteration time 30000000 — the flag update happens, the timestamp
advancement does not. -/
theorem C1_counterexample :
    (getUser (profilesLoop ⟨[sampleUser "a" true true 0 0 0 none,
        sampleUser "b" true true 0 0 0 none], [], [], []⟩ 30000000 gov0
        (.ok [sampleRemoteUser "a" false]) allOk).db.users "b").map
      (fun u => (u.accountExists, u.profileScrapedAt)) = some (false, 0) ∧
    (getUser (profilesLoop ⟨[sampleUser "a" true true 0 0 0 none,
        sampleUser "b" true true 0 0 0 none], [], [], []⟩ 30000000 gov0
        (.ok [sampleRemoteUser "a" false]) allOk).db.users "a").map
      (fun u => u.profileScrapedAt) = some 30000000 ∧
    (0 : Int) ≠ 30000000 :=
  ⟨by decide, by decide, by decide⟩

/-- Witness for C1 amended at the counterexample's store. -/
theorem C1_missing_id_flagged_not_advanced_witness :
    profilesStaleUsers ⟨[sampleUser "a" true true 0 0 0 none,
        sampleUser "b" true true 0 0 0 none], [], [], []⟩
      = [sampleUser "a" true true 0 0 0 none,
         sampleUser "b" true true 0 0 0 none] ∧
    ((30000000 : Int) - (sampleUser "a" true true 0 0 0 none).likesScrapedAt
      > REFRESH_THRESHOLD_IN_MS) ∧
    (getUser (profilesLoop ⟨[sampleUser "a" true true 0 0 0 none,
        sampleUser "b" true true 0 0 0 none], [], [], []⟩ 30000000 gov0
        (.ok [sampleRemoteUser "a" false]) allOk).db.users "b"
      = some { sampleUser "b" true true 0 0 0 none with accountExists := false } ∧
     ({ sampleUser "b" true true 0 0 0 none with
        accountExists := false } : TUser).profileScrapedAt
      = (sampleUser "b" true true 0 0 0 none).profileScrapedAt) :=
  ⟨by decide, by decide,
   C1_missing_id_flagged_not_advanced
     ⟨[sampleUser "a" true true 0 0 0 none,
       sampleUser "b" true true 0 0 0 none], [], [], []⟩
     30000000 gov0 [sampleRemoteUser "a" false]
     (sampleUser "a" true true 0 0 0 none)
     [sampleUser "b" true true 0 0 0 none] "b"
     (sampleUser "b" true true 0 0 0 none)
     (by decide) (by decide) (by decide) (by decide) (by decide)⟩

/-! ## C3: staleness advancement under partial write failure -/

/-- C3 fails on the profiles track: in a batch of two due accounts where
the second per-item write fails, the first account's `profileScrapedAt`
has already been advanced to the iteration time even though the batch
errored, because each account's timestamp is written inside its own
per-item update. -/
theorem C3_counterexample :
    (profilesLoop ⟨[sampleUser "a" true true 0 0 0 none,
        sampleUser "b" true true 0 0 0 none], [], [], []⟩ 30000000 gov0
        (.ok [sampleRemoteUser "a" false, sampleRemoteUser "b" false])
        (fun id => !(id == "b"))).error = some (.writeFailed "b") ∧
    (getUser (profilesLoop ⟨[sampleUser "a" true true 0 0 0 none,
        sampleUser "b" true true 0 0 0 none], [], [], []⟩ 30000000 gov0
        (.ok [sampleRemoteUser "a" false, sampleRemoteUser "b" false])
        (fun id => !(id == "b"))).db.users "a").map
      (fun u => u.profileScrapedAt) = some 30000000 ∧
    (getUser (profilesLoop ⟨[sampleUser "a" true true 0 0 0 none,
        sampleUser "b" true true 0 0 0 none], [], [], []⟩ 30000000 gov0
        (.ok [sampleRemoteUser "a" false, sampleRemoteUser "b" false])
        (fun id => !(id == "b"))).db.users "b").map
      (fun u => u.profileScrapedAt) = some 0 :=
  ⟨by decide, by decide, by decide⟩

/-- C3 amended: on the following and likes tracks the candidate's
staleness timestamp is advanced only after every per-item write of the
iteration succeeded — if the iteration ends in an error, every
pre-existing account keeps its `fullFollowingScrapedAt` (respectively
the whole user table is untouched for the likes track). The profiles
track does not have this property (see the counterexample). -/
theorem C3_partial_failure_no_advancement (db : Db) (now : Time)
    (gov : GovState) (ff : Except LoopError FollowingFetch)
    (lf : Except LoopError (List TweetV2)) (writeOk : String → Bool)
    (j : String) (u : TUser) (hu : getUser db.users j = some u) :
    ((followingLoop db now gov ff writeOk).error.isSome →
      ∃ u', getUser (followingLoop db now gov ff writeOk).db.users j = some u' ∧
        u'.fullFollowingScrapedAt = u.fullFollowingScrapedAt) ∧
    ((likesLoop db now gov lf writeOk).error.isSome →
      (likesLoop db now gov lf writeOk).db.users = db.users) :=
  ⟨fun herr => followingLoop_error_preserves db now gov ff writeOk j u hu herr,
   fun herr => likesLoop_error_users db now gov lf writeOk herr⟩

/-- Witness for C3 amended: a following iteration whose fetch errors
and a likes iteration that fails its only per-item write; the
candidate's staleness timestamps survive unchanged. -/
theorem C3_partial_failure_no_advancement_witness :
    getUser [sampleUser "a" true true 0 0 0 (some (sampleMeta false))] "a"
      = some (sampleUser "a" true true 0 0 0 (some (sampleMeta false))) ∧
    (followingLoop ⟨[sampleUser "a" true true 0 0 0 (some (sampleMeta false))],
        [], [], []⟩ 30000000 gov0 (.error (.apiError 503))
        (fun _ => false)).error.isSome ∧
    (likesLoop ⟨[sampleUser "a" true true 0 0 0 (some (sampleMeta false))],
        [], [], []⟩ 30000000 gov0 (.ok [sampleTweet "t1"])
        (fun _ => false)).error.isSome ∧
    (∃ u', getUser (followingLoop
        ⟨[sampleUser "a" true true 0 0 0 (some (sampleMeta false))],
          [], [], []⟩ 30000000 gov0 (.error (.apiError 503))
        (fun _ => false)).db.users "a" = some u' ∧
      u'.fullFollowingScrapedAt
        = (sampleUser "a" true true 0 0 0 (some (sampleMeta false))).fullFollowingScrapedAt) ∧
    (likesLoop ⟨[sampleUser "a" true true 0 0 0 (some (sampleMeta false))],
        [], [], []⟩ 30000000 gov0 (.ok [sampleTweet "t1"])
        (fun _ => false)).db.users
      = [sampleUser "a" true true 0 0 0 (some (sampleMeta false))] :=
  ⟨by decide, by decide, by decide,
   (C3_partial_failure_no_advancement
      ⟨[sampleUser "a" true true 0 0 0 (some (sampleMeta false))], [], [], []⟩
      30000000 gov0 (.error (.apiError 503))
      (.ok [sampleTweet "t1"]) (fun _ => false) "a"
      (sampleUser "a" true true 0 0 0 (some (sampleMeta false)))
      (by decide)).1 (by decide),
   (C3_partial_failure_no_advancement
      ⟨[sampleUser "a" true true 0 0 0 (some (sampleMeta false))], [], [], []⟩
      30000000 gov0 (.error (.apiError 503))
      (.ok [sampleTweet "t1"]) (fun _ => false) "a"
      (sampleUser "a" true true 0 0 0 (some (sampleMeta false)))
      (by decide)).2 (by decide)⟩

end Mercury
